import Mathlib

/-!
Shallow embedding of the prediction engine
=============================================

This file embeds the core of the prediction-engine repository
(`src/prediction_engine/prediction.py`, `parser.py`, `validator.py`) in Lean 4
and proves the specification claims about it.

Modelling conventions:
* Python strings are `List Char`; `str` converts a Lean string literal.
* Python `float` values are modelled as exact rationals `ℚ`, except in the
  haversine sky-separation computation of the validator, which uses real
  trigonometry and is modelled over `ℝ`.  The IEEE value `float("inf")`
  (returned by the frequency check for a zero predicted frequency) is modelled
  by the sum type `PyFloatInf`.
* Python `datetime` values are points on a rational time line measured in
  seconds (`ℚ`); `timedelta` arithmetic and `total_seconds()` translate to
  plain rational arithmetic.  Calendar dates parsed by `strptime` are mapped
  onto that line by `epochOfYMD` (proleptic Gregorian day count).
* Exceptions are modelled with `Except`/`Option`: `ValueError` raised by a
  dataclass `__post_init__` becomes the `.error` branch of the `mk…` smart
  constructors, and the `try/except ValueError` blocks of the parser become
  `Option`-valued recoveries, exactly where the source catches them.
* The regular expressions of `PredictionParser.PATTERNS` are embedded as
  explicit scanning functions with Python `re` semantics (leftmost search,
  alternatives in order, greedy bounded quantifiers with backtracking where the
  pattern needs it).
-/

set_option maxRecDepth 100000
set_option maxHeartbeats 4000000

/-- Convert a Lean string literal to the `List Char` representation used for
Python strings throughout this development. -/
def str (s : String) : List Char := s.toList

/-- The ASCII whitespace characters of Python's `str.strip` and of the regex
class `\s`. -/
def pySpace (c : Char) : Bool :=
  c == ' ' || c == '\t' || c == '\n' || c == '\r' || c == Char.ofNat 11 || c == Char.ofNat 12

/-- Case-insensitive character comparison (re.IGNORECASE on ASCII). -/
def ciEq (a b : Char) : Bool := a.toLower == b.toLower

/-- Match a literal pattern case-insensitively at the head of the input,
returning the rest of the input on success. -/
def litCI : List Char → List Char → Option (List Char)
  | [], s => some s
  | _ :: _, [] => none
  | a :: as, b :: bs => if ciEq a b then litCI as bs else none

/-- Greedy `+` over a character class: the (non-empty) captured run and the
rest of the input. -/
def plusClass (cls : Char → Bool) (s : List Char) : Option (List Char × List Char) :=
  let t := s.takeWhile cls
  if t.isEmpty then none else some (t, s.dropWhile cls)

/-- The `re.search` driver: try a matcher at every start position, left to right. -/
def reSearch {α : Type} (m : List Char → Option α) : List Char → Option α
  | [] => m []
  | c :: t =>
    match m (c :: t) with
    | some r => some r
    | none => reSearch m t

/-- Characters of the separator class `[:\s]` used by the field patterns. -/
def isSepChar (c : Char) : Bool := c == ':' || pySpace c

/-- Characters of the capture class `[0-9.]`. -/
def isFloatChar (c : Char) : Bool := c.isDigit || c == '.'

/-- Characters of the capture class `[0-9.e\-+]` under re.IGNORECASE. -/
def isAmpChar (c : Char) : Bool :=
  c.isDigit || c == '.' || c == 'e' || c == 'E' || c == '-' || c == '+'

/-- Characters of the capture class `[0-9.\-+]` (declination). -/
def isDecChar (c : Char) : Bool := c.isDigit || c == '.' || c == '-' || c == '+'

/-- Characters of the class `[A-Za-z0-9\-_]` (prediction id capture). -/
def isIdChar (c : Char) : Bool := c.isAlphanum || c == '-' || c == '_'

/-- Characters of the regex class `\w`. -/
def isWordChar (c : Char) : Bool := c.isAlphanum || c == '_'

/-- After a key alternative matched, consume `[:\s]+` and capture `cls+`
(the key/value patterns of `PredictionParser.PATTERNS`). -/
def matchAfterKey (cls : Char → Bool) (rest : List Char) : Option (List Char) :=
  match plusClass isSepChar rest with
  | none => none
  | some (_, r2) =>
    match plusClass cls r2 with
    | none => none
    | some (cap, _) => some cap

/-- Try key alternatives in regex order at one position; on a key hit whose
continuation fails, fall through to the next alternative. -/
def matchKeyValAt : List (List Char → Option (List Char)) → (Char → Bool) →
    List Char → Option (List Char)
  | [], _, _ => none
  | k :: ks, cls, s =>
    match k s with
    | some rest =>
      match matchAfterKey cls rest with
      | some cap => some cap
      | none => matchKeyValAt ks cls s
    | none => matchKeyValAt ks cls s

/-- The alternative `right\s*ascension` of the `right_ascension` pattern. -/
def rightAscKey (s : List Char) : Option (List Char) :=
  match litCI (str "right") s with
  | none => none
  | some r => litCI (str "ascension") (r.dropWhile pySpace)

/-- The alternative `chirp\s*mass` of the `chirp_mass` pattern. -/
def chirpMassKey (s : List Char) : Option (List Char) :=
  match litCI (str "chirp") s with
  | none => none
  | some r => litCI (str "mass") (r.dropWhile pySpace)

/-- Source `PATTERNS["frequency"]`: `frequency[:\s]+([0-9.]+)\s*(?:hz)?` (the trailing
optional `hz` never affects the capture or success). -/
def extract_frequency (content : List Char) : Option (List Char) :=
  reSearch (matchKeyValAt [litCI (str "frequency")] isFloatChar) content

/-- Source `PATTERNS["amplitude"]`: `amplitude[:\s]+([0-9.e\-+]+)`. -/
def extract_amplitude (content : List Char) : Option (List Char) :=
  reSearch (matchKeyValAt [litCI (str "amplitude")] isAmpChar) content

/-- Source `PATTERNS["chirp_mass"]`: `chirp\s*mass[:\s]+([0-9.]+)…`. -/
def extract_chirp_mass (content : List Char) : Option (List Char) :=
  reSearch (matchKeyValAt [chirpMassKey] isFloatChar) content

/-- Source `PATTERNS["distance"]`: `distance[:\s]+([0-9.]+)…`. -/
def extract_distance (content : List Char) : Option (List Char) :=
  reSearch (matchKeyValAt [litCI (str "distance")] isFloatChar) content

/-- Source `PATTERNS["snr"]`: `snr[:\s]+([0-9.]+)`. -/
def extract_snr (content : List Char) : Option (List Char) :=
  reSearch (matchKeyValAt [litCI (str "snr")] isFloatChar) content

/-- Source `PATTERNS["confidence"]`: `confidence[:\s]+([0-9.]+)%?` (the optional `%`
never affects the capture or success). -/
def extract_confidence (content : List Char) : Option (List Char) :=
  reSearch (matchKeyValAt [litCI (str "confidence")] isFloatChar) content

/-- Source `PATTERNS["right_ascension"]`: `(?:ra|right\s*ascension)[:\s]+([0-9.]+)`. -/
def extract_ra (content : List Char) : Option (List Char) :=
  reSearch (matchKeyValAt [litCI (str "ra"), rightAscKey] isFloatChar) content

/-- Source `PATTERNS["declination"]`: `(?:dec|declination)[:\s]+([0-9.\-+]+)`. -/
def extract_dec (content : List Char) : Option (List Char) :=
  reSearch (matchKeyValAt [litCI (str "dec"), litCI (str "declination")] isDecChar) content

/-- The framework label alternatives, in regex order. -/
def FRAMEWORK_ALTS : List (List Char) :=
  [str "CIA", str "SIA", str "HIA", str "IIA", str "Experimental"]

/-- Try the framework alternatives case-insensitively, capturing the original
input text of the matched alternative (a regex group keeps source case). -/
def tryFrameworkAlts : List (List Char) → List Char → Option (List Char)
  | [], _ => none
  | w :: ws, s => if (litCI w s).isSome then some (s.take w.length) else tryFrameworkAlts ws s

/-- Source `PATTERNS["framework"]`: `framework[:\s]+(CIA|SIA|HIA|IIA|Experimental)`
with re.IGNORECASE. -/
def matchFrameworkAt (s : List Char) : Option (List Char) :=
  match litCI (str "framework") s with
  | none => none
  | some r1 =>
    match plusClass isSepChar r1 with
    | none => none
    | some (_, r2) => tryFrameworkAlts FRAMEWORK_ALTS r2

/-- Extraction for the `framework` pattern. -/
def extract_framework (content : List Char) : Option (List Char) :=
  reSearch matchFrameworkAt content

/-- Source `PATTERNS["prediction_id"]`: `(?:id|simulation)[:\s#]*([A-Za-z0-9\-_]+)`. -/
def matchPredIdKey (k : List Char) (s : List Char) : Option (List Char) :=
  match litCI k s with
  | none => none
  | some r =>
    match plusClass isIdChar (r.dropWhile (fun c => isSepChar c || c == '#')) with
    | none => none
    | some (cap, _) => some cap

/-- Per-position matcher of the `prediction_id` pattern (alternatives in regex
order, falling through when a key's continuation fails). -/
def matchPredIdAt (s : List Char) : Option (List Char) :=
  match matchPredIdKey (str "id") s with
  | some cap => some cap
  | none => matchPredIdKey (str "simulation") s

/-- Extraction for the `prediction_id` pattern. -/
def extract_prediction_id (content : List Char) : Option (List Char) :=
  reSearch matchPredIdAt content

/-- Numeric value of a digit run. -/
def digitsVal (ds : List Char) : ℕ := ds.foldl (fun a c => 10 * a + (c.toNat - 48)) 0

/-- Exponent-and-end part of Python's `float()` grammar, given the parsed sign
and mantissa. -/
def pyFloatExp (sgn mant : ℚ) : List Char → Option ℚ
  | [] => some (sgn * mant)
  | e :: t =>
    if e == 'e' || e == 'E' then
      let (esgn, t1) : ℤ × List Char :=
        match t with
        | '+' :: t' => (1, t')
        | '-' :: t' => (-1, t')
        | t' => (1, t')
      let ed := t1.takeWhile Char.isDigit
      let r := t1.dropWhile Char.isDigit
      if ed.isEmpty || !r.isEmpty then none
      else some (sgn * mant * (10 : ℚ) ^ (esgn * (digitsVal ed : ℤ)))
    else none

/-- Python's `float(s)` on the capture-class strings of the parser: optional
sign, decimal mantissa with at least one digit, optional exponent.  `none`
models the `ValueError` raised on malformed input.  (IEEE rounding is
modelled away: values are exact rationals.) -/
def pyFloat (s : List Char) : Option ℚ :=
  let (sgn, s1) : ℚ × List Char :=
    match s with
    | '+' :: t => (1, t)
    | '-' :: t => (-1, t)
    | t => (1, t)
  let ip := s1.takeWhile Char.isDigit
  let r1 := s1.dropWhile Char.isDigit
  match r1 with
  | '.' :: r2 =>
    let fp := r2.takeWhile Char.isDigit
    let r3 := r2.dropWhile Char.isDigit
    if ip.isEmpty && fp.isEmpty then none
    else pyFloatExp sgn ((digitsVal ip : ℚ) + (digitsVal fp : ℚ) / (10 : ℚ) ^ fp.length) r3
  | r2 => if ip.isEmpty then none else pyFloatExp sgn (digitsVal ip) r2

/-- Source `PredictionParser._safe_float`. -/
def safeFloat (v : Option (List Char)) : Option ℚ := v.bind pyFloat

/-- Source `prediction.py` — `PredictionType`. -/
inductive PredictionType
  | gravitational_wave
  | gamma_ray
  | solar_flare
  | tectonic
  | black_hole
  | tsunami
deriving DecidableEq

/-- The `.value` string of a `PredictionType` member. -/
def typeValue : PredictionType → List Char
  | .gravitational_wave => str "gravitational_wave"
  | .gamma_ray => str "gamma_ray"
  | .solar_flare => str "solar_flare"
  | .tectonic => str "tectonic"
  | .black_hole => str "black_hole"
  | .tsunami => str "tsunami"

/-- Source `prediction.py` — `PredictionStatus`. -/
inductive PredictionStatus
  | pending
  | validated
  | invalidated
  | expired
deriving DecidableEq

/-- Source `prediction.py` — `SkyLocation` (raw dataclass fields; the `__post_init__`
invariants live in `mkSkyLocation`). -/
structure SkyLocation where
  right_ascension : ℚ
  declination : ℚ
  uncertainty_radius : ℚ := 0
deriving DecidableEq

/-- The `ValueError` cases of `SkyLocation.__post_init__`, naming the violated
sub-field. -/
inductive SkyErr
  | raRange
  | decRange
  | uncertaintyNeg
deriving DecidableEq

/-- Source `SkyLocation(...)` including its `__post_init__` checks, in source order. -/
def mkSkyLocation (ra dec unc : ℚ) : Except SkyErr SkyLocation :=
  if ¬(0 ≤ ra ∧ ra ≤ 360) then .error .raRange
  else if ¬(-90 ≤ dec ∧ dec ≤ 90) then .error .decRange
  else if unc < 0 then .error .uncertaintyNeg
  else .ok ⟨ra, dec, unc⟩

/-- Source `prediction.py` — `WaveParameters` (raw dataclass fields). -/
structure WaveParameters where
  frequency_hz : ℚ
  amplitude : ℚ
  chirp_mass : Option ℚ := none
  distance_mpc : Option ℚ := none
  snr : Option ℚ := none
deriving DecidableEq

/-- The `ValueError` cases of `WaveParameters.__post_init__`. -/
inductive WaveErr
  | freqNonpos
  | ampNonpos
deriving DecidableEq

/-- Source `WaveParameters(...)` including its `__post_init__` checks. -/
def mkWaveParameters (f a : ℚ) (cm dm s : Option ℚ) : Except WaveErr WaveParameters :=
  if f ≤ 0 then .error .freqNonpos
  else if a ≤ 0 then .error .ampNonpos
  else .ok ⟨f, a, cm, dm, s⟩

/-- Source `prediction.py` — `Prediction` (raw dataclass fields; timestamps are
rational epoch seconds). -/
structure Prediction where
  id : List Char
  prediction_type : PredictionType
  created_at : ℚ
  predicted_event_start : ℚ
  predicted_event_end : ℚ
  framework : List Char
  confidence : ℚ
  description : List Char
  sky_location : Option SkyLocation := none
  wave_parameters : Option WaveParameters := none
  status : PredictionStatus := .pending
  sha256_hash : Option (List Char) := none
  matched_event_id : Option (List Char) := none
  tags : List (List Char) := []
deriving DecidableEq

/-- The `ValueError` cases of `Prediction.__post_init__`. -/
inductive PredErr
  | confidenceRange
  | windowOrder
  | frameworkInvalid
deriving DecidableEq

/-- The closed framework set of `Prediction.__post_init__`. -/
def VALID_FRAMEWORKS : List (List Char) :=
  [str "CIA", str "SIA", str "HIA", str "IIA", str "Experimental"]

/-- Source `Prediction(...)` including its `__post_init__` checks, in source order
(confidence range, window order, framework membership).  `sha256_hash` and
`matched_event_id` keep their dataclass defaults as in `parse_content`. -/
def mkPrediction (i : List Char) (ptype : PredictionType) (created_at ev_start ev_end : ℚ)
    (framework : List Char) (confidence : ℚ) (description : List Char)
    (sky : Option SkyLocation) (wave : Option WaveParameters)
    (status : PredictionStatus) (tags : List (List Char)) : Except PredErr Prediction :=
  if ¬(0 ≤ confidence ∧ confidence ≤ 1) then .error .confidenceRange
  else if ev_end < ev_start then .error .windowOrder
  else if ¬(framework ∈ VALID_FRAMEWORKS) then .error .frameworkInvalid
  else .ok ⟨i, ptype, created_at, ev_start, ev_end, framework, confidence, description,
    sky, wave, status, none, none, tags⟩

/-- Source `Prediction.is_within_window`. -/
def is_within_window (p : Prediction) (event_time : ℚ) : Bool :=
  decide (p.predicted_event_start ≤ event_time ∧ event_time ≤ p.predicted_event_end)

/-- Source `Prediction.time_window_hours`. -/
def time_window_hours (p : Prediction) : ℚ :=
  (p.predicted_event_end - p.predicted_event_start) / 3600

/-- Source `Prediction.mark_validated` (functional form of the in-place mutation). -/
def mark_validated (p : Prediction) (event_id : List Char) : Prediction :=
  { p with status := .validated, matched_event_id := some event_id }

/-- Source `Prediction.mark_invalidated`. -/
def mark_invalidated (p : Prediction) : Prediction :=
  { p with status := .invalidated }

/-- Characters accepted by the date separators `[/\-]`. -/
def dateSep (c : Char) : Bool := c == '/' || c == '-'

/-- Exactly `n` digits from the head of the input. -/
def takeDigitsN : ℕ → List Char → Option (List Char × List Char)
  | 0, s => some ([], s)
  | _ + 1, [] => none
  | n + 1, c :: t =>
    if c.isDigit then (takeDigitsN n t).map (fun p => (c :: p.1, p.2)) else none

/-- Source `PATTERNS["date"]` at one position: `(\d{1,2}[/\-]\d{1,2}[/\-]\d{2,4})`
with greedy bounded quantifiers and backtracking, returning the matched
token. -/
def matchDateAt (s : List Char) : Option (List Char) :=
  [2, 1].findSome? fun k1 =>
    (takeDigitsN k1 s).bind fun p1 =>
      match p1.2 with
      | sep1 :: r2 =>
        if dateSep sep1 then
          [2, 1].findSome? fun k2 =>
            (takeDigitsN k2 r2).bind fun p2 =>
              match p2.2 with
              | sep2 :: r4 =>
                if dateSep sep2 then
                  [4, 3, 2].findSome? fun k3 =>
                    (takeDigitsN k3 r4).map fun p3 =>
                      p1.1 ++ sep1 :: p2.1 ++ sep2 :: p3.1
                else none
              | [] => none
        else none
      | [] => none

/-- Source `PATTERNS["date"].findall(content)[0]`: the first (leftmost) date token. -/
def firstDateToken (content : List Char) : Option (List Char) :=
  reSearch matchDateAt content

/-- A calendar date as produced by `datetime.strptime` (time-of-day parts are
always midnight for the parser's formats). -/
structure YMD where
  year : ℕ
  month : ℕ
  day : ℕ
deriving DecidableEq

/-- Items of a `strptime` format string: directives and literal characters. -/
inductive FmtItem
  | dM
  | dD
  | dY2
  | dY4
  | lit (c : Char)

/-- CPython `_strptime` alternatives for `%m`: `1[0-2]|0[1-9]|[1-9]`, in
order. -/
def mCands (s : List Char) : List (ℕ × List Char) :=
  (match s with
    | '1' :: c :: t =>
      if c == '0' || c == '1' || c == '2' then [(10 + (c.toNat - 48), t)] else []
    | _ => []) ++
  (match s with
    | '0' :: c :: t => if c.isDigit && c != '0' then [(c.toNat - 48, t)] else []
    | _ => []) ++
  (match s with
    | c :: t => if c.isDigit && c != '0' then [(c.toNat - 48, t)] else []
    | _ => [])

/-- CPython `_strptime` alternatives for `%d`:
`3[01]|[12]\d|0[1-9]|[1-9]| [1-9]`, in order. -/
def dCands (s : List Char) : List (ℕ × List Char) :=
  (match s with
    | '3' :: c :: t => if c == '0' || c == '1' then [(30 + (c.toNat - 48), t)] else []
    | _ => []) ++
  (match s with
    | a :: c :: t =>
      if (a == '1' || a == '2') && c.isDigit then [((a.toNat - 48) * 10 + (c.toNat - 48), t)]
      else []
    | _ => []) ++
  (match s with
    | '0' :: c :: t => if c.isDigit && c != '0' then [(c.toNat - 48, t)] else []
    | _ => []) ++
  (match s with
    | c :: t => if c.isDigit && c != '0' then [(c.toNat - 48, t)] else []
    | _ => []) ++
  (match s with
    | ' ' :: c :: t => if c.isDigit && c != '0' then [(c.toNat - 48, t)] else []
    | _ => [])

/-- CPython `_strptime` `%y`: exactly two digits. -/
def y2Cands (s : List Char) : List (ℕ × List Char) :=
  match s with
  | a :: b :: t =>
    if a.isDigit && b.isDigit then [((a.toNat - 48) * 10 + (b.toNat - 48), t)] else []
  | _ => []

/-- CPython `_strptime` `%Y`: exactly four digits. -/
def y4Cands (s : List Char) : List (ℕ × List Char) :=
  match s with
  | a :: b :: c :: d :: t =>
    if a.isDigit && b.isDigit && c.isDigit && d.isDigit then
      [((a.toNat - 48) * 1000 + (b.toNat - 48) * 100 + (c.toNat - 48) * 10 + (d.toNat - 48), t)]
    else []
  | _ => []

/-- One format item applied to an accumulator, yielding candidates in
backtracking priority order.  `%y` applies CPython's century rule
(0–68 → 2000s, 69–99 → 1900s). -/
def stepFmt (it : FmtItem) (acc : YMD) (s : List Char) : List (YMD × List Char) :=
  match it with
  | .dM => (mCands s).map fun p => ({ acc with month := p.1 }, p.2)
  | .dD => (dCands s).map fun p => ({ acc with day := p.1 }, p.2)
  | .dY2 => (y2Cands s).map fun p =>
      ({ acc with year := if p.1 ≤ 68 then 2000 + p.1 else 1900 + p.1 }, p.2)
  | .dY4 => (y4Cands s).map fun p => ({ acc with year := p.1 }, p.2)
  | .lit c =>
    match s with
    | b :: t => if b == c then [(acc, t)] else []
    | [] => []

/-- All matches of a format, in regex backtracking order. -/
def runFmt : List FmtItem → YMD → List Char → List (YMD × List Char)
  | [], acc, s => [(acc, s)]
  | it :: rest, acc, s => (stepFmt it acc s).flatMap fun p => runFmt rest p.1 p.2

/-- Leap year (proleptic Gregorian), as `calendar.isleap`. -/
def isLeap (y : ℕ) : Bool := y % 4 == 0 && (y % 100 != 0 || y % 400 == 0)

/-- Days in a month. -/
def daysInMonth (y m : ℕ) : ℕ :=
  if m == 2 then (if isLeap y then 29 else 28)
  else if m == 4 || m == 6 || m == 9 || m == 11 then 30
  else 31

/-- The calendar validation performed by the `datetime` constructor inside
`strptime` (month range is already guaranteed by `%m`). -/
def validYMD (d : YMD) : Bool :=
  1 ≤ d.year && d.year ≤ 9999 && 1 ≤ d.day && d.day ≤ daysInMonth d.year d.month

/-- Source `datetime.strptime(s, fmt)` for the parser's date formats: the regex
engine commits to the first match in backtracking order, the match must span
the whole string, and the resulting date must be a valid calendar date;
`none` models `ValueError`. -/
def strptimeYMD (fmt : List FmtItem) (s : List Char) : Option YMD :=
  match runFmt fmt ⟨1900, 1, 1⟩ s with
  | [] => none
  | (acc, rest) :: _ =>
    if rest.isEmpty then (if validYMD acc then some acc else none) else none

/-- The format `%m<sep>%d<sep>%Y`. -/
def fmtMDY (sep : Char) : List FmtItem := [.dM, .lit sep, .dD, .lit sep, .dY4]

/-- The format `%m<sep>%d<sep>%y`. -/
def fmtMDy (sep : Char) : List FmtItem := [.dM, .lit sep, .dD, .lit sep, .dY2]

/-- The format `%Y-%m-%d`. -/
def fmtISO : List FmtItem := [.dY4, .lit '-', .dM, .lit '-', .dD]

/-- Source `PredictionParser._parse_date`'s format candidates, in source order:
`["%m/%d/%Y", "%m-%d-%Y", "%m/%d/%y", "%m-%d-%y", "%Y-%m-%d"]`. -/
def DATE_FORMATS : List (List FmtItem) :=
  [fmtMDY '/', fmtMDY '-', fmtMDy '/', fmtMDy '-', fmtISO]

/-- Source `PredictionParser._parse_date`: first format that parses; `none` models
the final `ValueError`. -/
def parse_date (s : List Char) : Option YMD :=
  DATE_FORMATS.findSome? fun f => strptimeYMD f s

/-- Days before month `m` in year `y`. -/
def daysBeforeMonth (y m : ℕ) : ℕ :=
  (List.range (m - 1)).foldl (fun a i => a + daysInMonth y (i + 1)) 0

/-- Proleptic Gregorian day number of a date (day 0 = 0001-01-01). -/
def dayNumber (d : YMD) : ℕ :=
  (d.year - 1) * 365 + (d.year - 1) / 4 - (d.year - 1) / 100 + (d.year - 1) / 400 +
    daysBeforeMonth d.year d.month + (d.day - 1)

/-- A parsed calendar date as a point of the rational time line (seconds,
epoch 1970-01-01 00:00). -/
def epochOfYMD (d : YMD) : ℚ :=
  ((dayNumber d : ℤ) - (dayNumber ⟨1970, 1, 1⟩ : ℤ) : ℤ) * 86400

/-- Python `str.strip()` (ASCII whitespace). -/
def stripChars (s : List Char) : List Char :=
  ((s.dropWhile pySpace).reverse.dropWhile pySpace).reverse

/-- Python `str.split("\n")`. -/
def splitLines : List Char → List (List Char)
  | [] => [[]]
  | c :: t =>
    if c == '\n' then [] :: splitLines t
    else
      match splitLines t with
      | [] => [[c]]
      | l :: ls => (c :: l) :: ls

/-- One line of `PredictionParser._extract_description`: the stripped line if
it is non-empty, is no heading, and has more than 10 characters (then
truncated to 200 characters). -/
def descOfLine (l : List Char) : Option (List Char) :=
  let t := stripChars l
  if ¬t.isEmpty ∧ t.head? ≠ some '#' ∧ t.length > 10 then some (t.take 200) else none

/-- Source `PredictionParser._extract_description`. -/
def extractDescription (content : List Char) : List Char :=
  ((splitLines (stripChars content)).findSome? descOfLine).getD (str "No description available")

/-- Source `re.findall(r"#(\w+)", content)` with a fuel argument (the input length
suffices; matches are non-overlapping, scanning left to right). -/
def findTagsAux : ℕ → List Char → List (List Char)
  | 0, _ => []
  | _ + 1, [] => []
  | n + 1, c :: t =>
    if c == '#' then
      let w := t.takeWhile isWordChar
      if w.isEmpty then findTagsAux n t else w :: findTagsAux n (t.dropWhile isWordChar)
    else findTagsAux n t

/-- All `#word` tags of the content, in order of occurrence. -/
def findTags (s : List Char) : List (List Char) := findTagsAux s.length s

/-- De-duplication keeping first occurrences.  (The source builds
`list(set(tags))`, whose order is interpreter-defined; the claims never
inspect tag order, and this development fixes first-occurrence order.) -/
def dedupFirstAux (seen : List (List Char)) : List (List Char) → List (List Char)
  | [] => []
  | x :: xs => if x ∈ seen then dedupFirstAux seen xs else x :: dedupFirstAux (x :: seen) xs

/-- Source `PredictionParser._extract_tags`: de-duplicated tags capped at 10. -/
def extractTags (content : List Char) : List (List Char) :=
  (dedupFirstAux [] (findTags content)).take 10

/-- The final path component (after the last `/`). -/
def afterLastSlash (s : List Char) : List Char :=
  (s.reverse.takeWhile (fun c => c ≠ '/')).reverse

/-- Source `pathlib.Path(...).stem` of a path component: the name with its last
suffix removed (a suffix needs a dot that is neither leading nor trailing). -/
def stemSplit (name : List Char) : List Char :=
  let n := name.length
  let i := (n - 1) - (name.reverse.takeWhile (fun c => c ≠ '.')).length
  if name.contains '.' ∧ 0 < i ∧ i < n - 1 then name.take i else name

/-- Source `PredictionParser._generate_id`: `"PRED-" + Path(source).stem`. -/
def generateId (source : List Char) : List Char :=
  str "PRED-" ++ stemSplit (afterLastSlash source)

/-- Lowercase a Python string (`str.lower`, ASCII). -/
def toLowerL (s : List Char) : List Char := s.map Char.toLower

/-- Uppercase a Python string (`str.upper`, ASCII). -/
def upperL (s : List Char) : List Char := s.map Char.toUpper

/-- Tests whether `needle` starts the haystack. -/
def startsWithL : List Char → List Char → Bool
  | [], _ => true
  | _ :: _, [] => false
  | a :: as, b :: bs => a == b && startsWithL as bs

/-- Python's `needle in haystack` substring test. -/
def containsSub (needle : List Char) : List Char → Bool
  | [] => needle.isEmpty
  | c :: t => startsWithL needle (c :: t) || containsSub needle t

/-- Source `PredictionParser.TYPE_KEYWORDS`, in the source's (insertion-ordered)
enumeration order. -/
def TYPE_KEYWORDS : List (PredictionType × List (List Char)) :=
  [(.gravitational_wave, [str "gravitational", str "gw", str "ligo", str "merger", str "binary"]),
   (.gamma_ray, [str "gamma", str "grb", str "burst"]),
   (.solar_flare, [str "solar", str "flare", str "cme", str "sun"]),
   (.tectonic, [str "tectonic", str "earthquake", str "seismic", str "quake"]),
   (.black_hole, [str "black hole", str "blackhole", str "event horizon"]),
   (.tsunami, [str "tsunami", str "tidal wave"])]

/-- Source `PredictionParser._infer_prediction_type`: first category whose keyword
list has a case-insensitive substring hit; default gravitational wave. -/
def infer_prediction_type (content : List Char) : PredictionType :=
  let cl := toLowerL content
  match TYPE_KEYWORDS.find? (fun tk => tk.2.any fun k => containsSub k cl) with
  | some tk => tk.1
  | none => .gravitational_wave

/-- Source `PredictionParser._extract_sky_location`: needs both patterns; any
`ValueError` — malformed float or a `SkyLocation.__post_init__` invariant
violation — is caught and yields `none`. -/
def extract_sky_location (content : List Char) : Option SkyLocation :=
  match extract_ra content, extract_dec content with
  | some ra, some dec =>
    match pyFloat ra, pyFloat dec with
    | some raq, some decq => (mkSkyLocation raq decq 0).toOption
    | _, _ => none
  | _, _ => none

/-- Source `PredictionParser._extract_wave_parameters`: needs at least one of the
frequency/amplitude patterns, fills the missing one with its default
(100 Hz, 1e-21); any `ValueError` — malformed float or a
`WaveParameters.__post_init__` invariant violation — is caught and yields
`none`. -/
def extract_wave_parameters (content : List Char) : Option WaveParameters :=
  let fs := extract_frequency content
  let amps := extract_amplitude content
  if fs.isNone ∧ amps.isNone then none
  else
    let fq : Option ℚ := match fs with | none => some 100 | some tt => pyFloat tt
    let aq : Option ℚ := match amps with | none => some ((1 : ℚ) / 10 ^ 21) | some tt => pyFloat tt
    match fq, aq with
    | some fv, some av =>
      (mkWaveParameters fv av (safeFloat (extract_chirp_mass content))
        (safeFloat (extract_distance content)) (safeFloat (extract_snr content))).toOption
    | _, _ => none

/-- The exceptions observable from `parse_content`: `ParseError` on empty
content, the `ValueError` of `float(confidence_str)`, and the structural
`ValueError` of `Prediction.__post_init__`. -/
inductive PyError
  | parseError
  | floatError
  | structural (e : PredErr)
deriving DecidableEq

/-- Lines 114–115 of `parser.py`: extracted confidence over 100, default
0.5; `float()` failure raises (uncaught). -/
def confValue : Option (List Char) → Except PyError ℚ
  | none => .ok (1 / 2)
  | some s =>
    match pyFloat s with
    | some v => .ok (v / 100)
    | none => .error .floatError

/-- Source `PredictionParser.parse_content`.  `now` is the value of
`datetime.now()` (taken once, used for `created_at` and as the date
fallback); `source_file` feeds the id fallback. -/
def parse_content (content source_file : List Char) (now : ℚ) : Except PyError Prediction :=
  if (stripChars content).isEmpty then .error .parseError
  else
    let prediction_id := (extract_prediction_id content).getD (generateId source_file)
    let framework := (extract_framework content).getD (str "Experimental")
    let ptype := infer_prediction_type content
    match confValue (extract_confidence content) with
    | .error e => .error e
    | .ok conf0 =>
      let confidence := if conf0 > 1 then conf0 / 100 else conf0
      let wave := if ptype = .gravitational_wave then extract_wave_parameters content else none
      let sky := extract_sky_location content
      let event_date :=
        match firstDateToken content with
        | none => now
        | some tok =>
          match parse_date tok with
          | some d => epochOfYMD d
          | none => now
      match mkPrediction prediction_id ptype now event_date (event_date + 86400)
          (if framework ≠ str "Experimental" then upperL framework else framework)
          (min (max confidence 0) 1)
          (extractDescription content) sky wave .pending (extractTags content) with
      | .ok p => .ok p
      | .error e => .error (.structural e)

/-- Decidable equality for parse results (used by concrete evaluations). -/
instance exceptDecEq {e a : Type} [DecidableEq e] [DecidableEq a] : DecidableEq (Except e a)
  | .ok x, .ok y => if h : x = y then .isTrue (by rw [h]) else .isFalse (by simp [h])
  | .ok _, .error _ => .isFalse (by simp)
  | .error _, .ok _ => .isFalse (by simp)
  | .error x, .error y => if h : x = y then .isTrue (by rw [h]) else .isFalse (by simp [h])

/-- The stored confidence of a parse result (projection used by concrete
evaluations). -/
def confidenceOf : Except PyError Prediction → Option ℚ
  | .ok p => some p.confidence
  | .error _ => none

/-- The sky location of a parse result. -/
def skyOf : Except PyError Prediction → Option (Option SkyLocation)
  | .ok p => some p.sky_location
  | .error _ => none

/-- The prediction window of a parse result. -/
def windowOf : Except PyError Prediction → Option (ℚ × ℚ)
  | .ok p => some (p.predicted_event_start, p.predicted_event_end)
  | .error _ => none

/-- The canonical structure hashed by `HashVerifier.compute_prediction_hash`:
exactly the content fields (timestamps stand in for their injective
`isoformat` strings, rationals for the floats that `json.dumps` renders). -/
structure HashableData where
  id : List Char
  type : List Char
  created_at : ℚ
  event_start : ℚ
  event_end : ℚ
  framework : List Char
  confidence : ℚ
  description : List Char
  sky_location : Option (ℚ × ℚ)
  wave_params : Option (ℚ × ℚ)
deriving DecidableEq

/-- The `hashable_data` dictionary of `compute_prediction_hash`: sky location
contributes only right ascension and declination (not the uncertainty
radius), wave parameters only frequency and amplitude. -/
def hashableData (p : Prediction) : HashableData :=
  { id := p.id
    type := typeValue p.prediction_type
    created_at := p.created_at
    event_start := p.predicted_event_start
    event_end := p.predicted_event_end
    framework := p.framework
    confidence := p.confidence
    description := p.description
    sky_location := p.sky_location.map fun s => (s.right_ascension, s.declination)
    wave_params := p.wave_parameters.map fun w => (w.frequency_hz, w.amplitude) }

/-- Source `HashVerifier.compute_prediction_hash`, parametric in the composition of
the canonical JSON serialization (`json.dumps` with sorted keys and tight
separators, injective on `HashableData`) with SHA-256; the digest is a
function of `hashableData p` and of nothing else. -/
def compute_prediction_hash (sha256_of_json : HashableData → List Char) (p : Prediction) :
    List Char :=
  sha256_of_json (hashableData p)

/-- Source `validator.py` — `PredictionValidator` tolerance configuration.  The
source stores the time tolerance as a `timedelta` and compares in hours; the
hours figure is kept directly.  Defaults 24 h / 30° / 50 %. -/
structure PredictionValidator where
  time_tolerance_hours : ℚ := 24
  location_tolerance : ℚ := 30
  frequency_tolerance_percent : ℚ := 50

/-- Source `self.frequency_tolerance = frequency_tolerance_percent / 100`. -/
def PredictionValidator.frequency_tolerance (v : PredictionValidator) : ℚ :=
  v.frequency_tolerance_percent / 100

/-- Source `PredictionValidator.check_time_match`. -/
def check_time_match (v : PredictionValidator) (p : Prediction) (event_time : ℚ) : Bool × ℚ :=
  if is_within_window p event_time then
    let window_center := p.predicted_event_start + time_window_hours p / 2 * 3600
    (true, |event_time - window_center| / 3600)
  else
    let start_diff := |event_time - p.predicted_event_start|
    let end_diff := |event_time - p.predicted_event_end|
    let min_diff_hours := min start_diff end_diff / 3600
    (decide (min_diff_hours ≤ v.time_tolerance_hours), min_diff_hours)

/-- The IEEE float returned as a frequency distance: a finite value or
`float("inf")`. -/
inductive PyFloatInf
  | fin (x : ℚ)
  | inf
deriving DecidableEq

/-- Source `PredictionValidator.check_frequency_match`. -/
def check_frequency_match (v : PredictionValidator) (p : Prediction) (event_frequency : ℚ) :
    Bool × PyFloatInf :=
  match p.wave_parameters with
  | none => (true, .fin 0)
  | some wp =>
    if wp.frequency_hz = 0 then (false, .inf)
    else
      let diff := |event_frequency - wp.frequency_hz| / wp.frequency_hz
      (decide (diff ≤ v.frequency_tolerance), .fin (diff * 100))

/-- Source `math.radians`. -/
noncomputable def radians (d : ℝ) : ℝ := d * (Real.pi / 180)

/-- Source `math.degrees`. -/
noncomputable def degrees (r : ℝ) : ℝ := r * (180 / Real.pi)

/-- The haversine angular separation of `check_location_match`, in degrees. -/
noncomputable def angular_separation_deg (ra1 dec1 ra2 dec2 : ℝ) : ℝ :=
  let r1 := radians ra1
  let d1 := radians dec1
  let r2 := radians ra2
  let d2 := radians dec2
  let d_ra := r2 - r1
  let d_dec := d2 - d1
  let a := Real.sin (d_dec / 2) ^ 2 + Real.cos d1 * Real.cos d2 * Real.sin (d_ra / 2) ^ 2
  degrees (2 * Real.arcsin (Real.sqrt a))

/-- Source `PredictionValidator.check_location_match`: the match flag is the
proposition compared by the source's `<=` on floats. -/
noncomputable def check_location_match (v : PredictionValidator) (p : Prediction)
    (event_ra event_dec : ℝ) : Prop × ℝ :=
  match p.sky_location with
  | none => (True, 0)
  | some sl =>
    let sep := angular_separation_deg (sl.right_ascension : ℝ) (sl.declination : ℝ)
      event_ra event_dec
    (sep ≤ (v.location_tolerance : ℝ) + (sl.uncertainty_radius : ℝ), sep)

/-- The per-axis frequency score `max(0, 1 - diff/100)` on IEEE floats:
`1 - inf/100 = -inf` and `max(0, -inf) = 0`. -/
noncomputable def pyInfScore : PyFloatInf → ℝ
  | .fin x => max 0 (1 - (x : ℝ) / 100)
  | .inf => 0

/-- The result dictionary of `validate_against_event`. -/
structure ValidationResult where
  overall_match : Prop
  time_match : Bool
  time_difference_hours : ℚ
  location_check : Option (Prop × ℝ)
  frequency_check : Option (Bool × PyFloatInf)
  match_score : ℝ

/-- Source `PredictionValidator.validate_against_event`, following the source's
control flow: the time axis always, location only when both coordinates are
supplied, frequency only when a frequency is supplied; `overall_match`
starts true and is cleared by each failing evaluated axis; the score list
collects the per-axis scores of the evaluated axes and is averaged. -/
noncomputable def validate_against_event (v : PredictionValidator) (p : Prediction)
    (event_time : ℚ) (event_ra event_dec : Option ℝ) (event_frequency : Option ℚ) :
    ValidationResult :=
  let tc := check_time_match v p event_time
  let loc : Option (Prop × ℝ) :=
    match event_ra, event_dec with
    | some ra, some dec => some (check_location_match v p ra dec)
    | _, _ => none
  let freq : Option (Bool × PyFloatInf) :=
    match event_frequency with
    | some f => some (check_frequency_match v p f)
    | none => none
  let overall : Prop :=
    (tc.1 = true) ∧
      (match loc with | some lc => lc.1 | none => True) ∧
      (match freq with | some fc => fc.1 = true | none => True)
  let scores : List ℝ :=
    [max 0 (1 - (tc.2 : ℝ) / 48)] ++
      (match loc with | some lc => [max 0 (1 - lc.2 / 90)] | none => []) ++
      (match freq with | some fc => [pyInfScore fc.2] | none => [])
  { overall_match := overall
    time_match := tc.1
    time_difference_hours := tc.2
    location_check := loc
    frequency_check := freq
    match_score := if scores.length = 0 then 0 else scores.sum / (scores.length : ℝ) }

/-- Sample forecast for concrete instantiations. -/
def pA : Prediction :=
  { id := str "P1", prediction_type := .gravitational_wave, created_at := 0,
    predicted_event_start := 0, predicted_event_end := 86400, framework := str "CIA",
    confidence := 1 / 2, description := str "sample forecast",
    sky_location := some ⟨10, 20, 0⟩, wave_parameters := some ⟨100, 1, none, none, none⟩ }

/-- Sample `pA` with a different confidence (a content-field change). -/
def pB : Prediction := { pA with confidence := 3 / 4 }

/-- The `.value` strings distinguish the category members. -/
theorem typeValue_inj (a b : PredictionType) (h : typeValue a = typeValue b) : a = b := by
  cases a <;> cases b <;> first | rfl | exact absurd h (by decide)

/-- A successful `Prediction(...)` construction returns exactly the record of
its arguments (with the dataclass defaults). -/
theorem mkPrediction_ok {i ptype created_at ev_start ev_end framework confidence description
    sky wave status tags p}
    (h : mkPrediction i ptype created_at ev_start ev_end framework confidence description
      sky wave status tags = .ok p) :
    p = ⟨i, ptype, created_at, ev_start, ev_end, framework, confidence, description,
      sky, wave, status, none, none, tags⟩ := by
  unfold mkPrediction at h
  split at h
  · exact absurd h (by simp)
  split at h
  · exact absurd h (by simp)
  split at h
  · exact absurd h (by simp)
  injection h with h
  exact h.symm

/-- C1: the prediction digest is a deterministic function of exactly the
content fields (id, category value, creation timestamp, window start/end,
framework, confidence, description, and — when present — sky RA/dec and wave
frequency/amplitude): `mark_validated` and `mark_invalidated` leave the
digest unchanged for every choice of hash function, and changing any listed
content field changes the canonical hashed structure (hence the digest, for
any collision-free serialization-and-hash). -/
theorem prediction_hash_content_only (h : HashableData → List Char) (p q : Prediction)
    (e : List Char) :
    compute_prediction_hash h (mark_validated p e) = compute_prediction_hash h p ∧
    compute_prediction_hash h (mark_invalidated p) = compute_prediction_hash h p ∧
    (hashableData p = hashableData q →
      compute_prediction_hash h p = compute_prediction_hash h q) ∧
    ((p.id ≠ q.id ∨ p.prediction_type ≠ q.prediction_type ∨ p.created_at ≠ q.created_at ∨
        p.predicted_event_start ≠ q.predicted_event_start ∨
        p.predicted_event_end ≠ q.predicted_event_end ∨ p.framework ≠ q.framework ∨
        p.confidence ≠ q.confidence ∨ p.description ≠ q.description ∨
        p.sky_location.map (fun s => (s.right_ascension, s.declination)) ≠
          q.sky_location.map (fun s => (s.right_ascension, s.declination)) ∨
        p.wave_parameters.map (fun w => (w.frequency_hz, w.amplitude)) ≠
          q.wave_parameters.map (fun w => (w.frequency_hz, w.amplitude))) →
      hashableData p ≠ hashableData q) := by
  refine ⟨rfl, rfl, fun hpq => by simp [compute_prediction_hash, hpq], fun hd hEq => ?_⟩
  simp only [hashableData, HashableData.mk.injEq] at hEq
  obtain ⟨h1, h2, h3, h4, h5, h6, h7, h8, h9, h10⟩ := hEq
  rcases hd with hx | hx | hx | hx | hx | hx | hx | hx | hx | hx
  · exact hx h1
  · exact hx (typeValue_inj _ _ h2)
  · exact hx h3
  · exact hx h4
  · exact hx h5
  · exact hx h6
  · exact hx h7
  · exact hx h8
  · exact hx h9
  · exact hx h10

/-- C1 witness: a concrete lifecycle transition leaves the digest unchanged,
and a concrete confidence change changes the hashed structure. -/
theorem prediction_hash_content_only_witness :
    compute_prediction_hash (fun _ => []) (mark_validated pA (str "GW150914")) =
      compute_prediction_hash (fun _ => []) pA ∧
    compute_prediction_hash (fun _ => []) (mark_invalidated pA) =
      compute_prediction_hash (fun _ => []) pA ∧
    hashableData pA = hashableData pA ∧
    compute_prediction_hash (fun _ => []) pA = compute_prediction_hash (fun _ => []) pA ∧
    pA.confidence ≠ pB.confidence ∧
    hashableData pA ≠ hashableData pB := by
  have t := prediction_hash_content_only (fun _ => []) pA pB (str "GW150914")
  have hconf : pA.confidence ≠ pB.confidence := by norm_num [pA, pB]
  exact ⟨t.1, t.2.1, rfl,
    (prediction_hash_content_only (fun _ => []) pA pA (str "GW150914")).2.2.1 rfl,
    hconf, t.2.2.2 (.inr (.inr (.inr (.inr (.inr (.inr (.inl hconf)))))))⟩

/-- C2 counterexample: for the input `"Confidence: 150%"` the stored
confidence is 3/200 = 0.015, not the claimed `clamp(150/100, 0, 1) = 1.0`:
the parser divides a second time by 100 before clamping. -/
theorem confidence_150_counterexample :
    confidenceOf (parse_content (str "Confidence: 150%") (str "pred.md") 0) = some (3 / 200) ∧
    (3 / 200 : ℚ) ≠ 1 := by
  constructor
  · with_unfolding_all decide
  · norm_num

/-- C2 (amended): for every confidence value c extracted from a
`Confidence: c%` pattern, the stored confidence equals `clamp(n, 0, 1)` where
`n = c/100` when `c/100 ≤ 1` and `n = c/10000` otherwise (the second division
by 100 fires whenever the first normalization exceeds 1). -/
theorem confidence_clamp_double (content src : List Char) (now : ℚ) (p : Prediction)
    (s : List Char) (c : ℚ)
    (hok : parse_content content src now = .ok p)
    (hs : extract_confidence content = some s)
    (hc : pyFloat s = some c) :
    p.confidence = min (max (if c / 100 > 1 then c / 100 / 100 else c / 100) 0) 1 := by
  unfold parse_content at hok
  rw [hs] at hok
  simp only [confValue, hc] at hok
  split at hok
  · exact absurd hok (by simp)
  split at hok
  · next q hmk =>
    obtain rfl : q = p := by injection hok
    rw [mkPrediction_ok hmk]
  · exact absurd hok (by simp)

/-- C2 witness: the amended rule applied to the concrete input
`"Confidence: 150%"`. -/
theorem confidence_clamp_double_witness :
    extract_confidence (str "Confidence: 150%") = some (str "150") ∧
    pyFloat (str "150") = some 150 ∧
    confidenceOf (parse_content (str "Confidence: 150%") (str "pred.md") 0) =
      some (min (max (if (150 : ℚ) / 100 > 1 then 150 / 100 / 100 else 150 / 100) 0) 1) := by
  refine ⟨by with_unfolding_all decide, by with_unfolding_all decide, ?_⟩
  cases hok : parse_content (str "Confidence: 150%") (str "pred.md") 0 with
  | error e =>
    have hval : confidenceOf (parse_content (str "Confidence: 150%") (str "pred.md") 0) =
        some (3 / 200) := by with_unfolding_all decide
    rw [hok] at hval
    exact absurd hval (by simp [confidenceOf])
  | ok p =>
    have hp := confidence_clamp_double (str "Confidence: 150%") (str "pred.md") 0 p
      (str "150") 150 hok (by with_unfolding_all decide) (by with_unfolding_all decide)
    simp only [confidenceOf, hp]

/-- C3: for an event inside the (inclusive) window, `check_time_match`
reports a match at the absolute distance in hours from the window midpoint —
so the window edges match at half the window length; outside the window it
reports the minimum of the hours to the two edges and matches exactly when
that distance is at most the configured time tolerance. -/
theorem time_match_spec (v : PredictionValidator) (p : Prediction) (t : ℚ) :
    (is_within_window p t = true →
      check_time_match v p t =
        (true, |t - (p.predicted_event_start + p.predicted_event_end) / 2| / 3600)) ∧
    (p.predicted_event_start ≤ p.predicted_event_end →
      (t = p.predicted_event_start ∨ t = p.predicted_event_end) →
      check_time_match v p t = (true, time_window_hours p / 2)) ∧
    (is_within_window p t = false →
      check_time_match v p t =
        (decide (min |t - p.predicted_event_start| |t - p.predicted_event_end| / 3600 ≤
            v.time_tolerance_hours),
          min |t - p.predicted_event_start| |t - p.predicted_event_end| / 3600)) ∧
    (is_within_window p t = false →
      ((check_time_match v p t).1 = true ↔
        min |t - p.predicted_event_start| |t - p.predicted_event_end| / 3600 ≤
          v.time_tolerance_hours)) := by
  have hcenter : p.predicted_event_start + time_window_hours p / 2 * 3600 =
      (p.predicted_event_start + p.predicted_event_end) / 2 := by
    unfold time_window_hours; ring
  have inside : is_within_window p t = true →
      check_time_match v p t =
        (true, |t - (p.predicted_event_start + p.predicted_event_end) / 2| / 3600) := by
    intro h
    unfold check_time_match
    rw [h]
    simp [hcenter]
  have outside : is_within_window p t = false →
      check_time_match v p t =
        (decide (min |t - p.predicted_event_start| |t - p.predicted_event_end| / 3600 ≤
            v.time_tolerance_hours),
          min |t - p.predicted_event_start| |t - p.predicted_event_end| / 3600) := by
    intro h
    unfold check_time_match
    rw [h]
    simp
  refine ⟨inside, fun hse ht => ?_, outside, fun h => ?_⟩
  · have hin : is_within_window p t = true := by
      rcases ht with rfl | rfl <;> simp [is_within_window, hse]
    rw [inside hin]
    have harg : |t - (p.predicted_event_start + p.predicted_event_end) / 2| / 3600 =
        time_window_hours p / 2 := by
      unfold time_window_hours
      rcases ht with rfl | rfl
      · rw [show p.predicted_event_start -
            (p.predicted_event_start + p.predicted_event_end) / 2 =
            -((p.predicted_event_end - p.predicted_event_start) / 2) by ring, abs_neg,
          abs_of_nonneg (by linarith)]
        ring
      · rw [show p.predicted_event_end -
            (p.predicted_event_start + p.predicted_event_end) / 2 =
            (p.predicted_event_end - p.predicted_event_start) / 2 by ring,
          abs_of_nonneg (by linarith)]
        ring
    rw [harg]
  · rw [outside h]
    simp

/-- C3 witness: the boundary and outside cases at concrete values — for the
24-hour window `[0, 86400]`, the event at the window start matches at
distance 12 h (half the window), and an event 25 h before the start does not
match under the default 24 h tolerance. -/
theorem time_match_spec_witness :
    is_within_window pA 0 = true ∧
    pA.predicted_event_start ≤ pA.predicted_event_end ∧
    (0 : ℚ) = pA.predicted_event_start ∧
    check_time_match ⟨24, 30, 50⟩ pA 0 = (true, time_window_hours pA / 2) ∧
    time_window_hours pA / 2 = 12 ∧
    is_within_window pA (-90000) = false ∧
    check_time_match ⟨24, 30, 50⟩ pA (-90000) =
      (decide (min |(-90000 : ℚ) - pA.predicted_event_start|
          |(-90000 : ℚ) - pA.predicted_event_end| / 3600 ≤
          (PredictionValidator.mk 24 30 50).time_tolerance_hours),
        min |(-90000 : ℚ) - pA.predicted_event_start|
          |(-90000 : ℚ) - pA.predicted_event_end| / 3600) ∧
    ((check_time_match ⟨24, 30, 50⟩ pA (-90000)).1 = true ↔
      min |(-90000 : ℚ) - pA.predicted_event_start|
        |(-90000 : ℚ) - pA.predicted_event_end| / 3600 ≤
        (PredictionValidator.mk 24 30 50).time_tolerance_hours) := by
  have t1 := time_match_spec ⟨24, 30, 50⟩ pA 0
  have t2 := time_match_spec ⟨24, 30, 50⟩ pA (-90000)
  have hwin : is_within_window pA 0 = true := by with_unfolding_all decide
  have hout : is_within_window pA (-90000) = false := by with_unfolding_all decide
  refine ⟨hwin, by norm_num [pA], by norm_num [pA],
    t1.2.1 (by norm_num [pA]) (Or.inl (by norm_num [pA])),
    by norm_num [time_window_hours, pA], hout, t2.2.2.1 hout, t2.2.2.2 hout⟩

/-- The haversine separation of a point from itself is zero. -/
theorem angular_separation_self (ra dec : ℝ) : angular_separation_deg ra dec ra dec = 0 := by
  unfold angular_separation_deg degrees
  simp

/-- C4: without a sky location the axis matches automatically at distance 0;
with one, `check_location_match` reports the haversine separation and matches
exactly when it is at most the configured sky tolerance plus the forecast's
uncertainty radius (inclusive, the two add); identical positions give
separation 0 and hence a match whenever the combined tolerance is
non-negative. -/
theorem location_match_spec (v : PredictionValidator) (p : Prediction) (era edec : ℝ)
    (sl : SkyLocation) :
    (p.sky_location = none → check_location_match v p era edec = (True, 0)) ∧
    (p.sky_location = some sl →
      check_location_match v p era edec =
        (angular_separation_deg (sl.right_ascension : ℝ) (sl.declination : ℝ) era edec ≤
            (v.location_tolerance : ℝ) + (sl.uncertainty_radius : ℝ),
          angular_separation_deg (sl.right_ascension : ℝ) (sl.declination : ℝ) era edec)) ∧
    (p.sky_location = some sl → era = (sl.right_ascension : ℝ) →
      edec = (sl.declination : ℝ) →
      ((check_location_match v p era edec).2 = 0 ∧
        (0 ≤ (v.location_tolerance : ℝ) + (sl.uncertainty_radius : ℝ) →
          (check_location_match v p era edec).1))) := by
  refine ⟨fun h => ?_, fun h => ?_, fun h h1 h2 => ?_⟩
  · simp [check_location_match, h]
  · simp [check_location_match, h]
  · subst h1
    subst h2
    have hsep := angular_separation_self (sl.right_ascension : ℝ) (sl.declination : ℝ)
    constructor
    · simp [check_location_match, h, hsep]
    · intro htol
      simp only [check_location_match, h, hsep]
      exact htol

/-- C4 witness: the forecast position `(RA 10°, dec 20°)` checked against an
event at the same position under the default 30° tolerance: separation 0 and
a match. -/
theorem location_match_spec_witness :
    pA.sky_location = some ⟨10, 20, 0⟩ ∧
    (0 : ℝ) ≤ (((30 : ℚ) : ℝ)) + (((0 : ℚ) : ℝ)) ∧
    (check_location_match ⟨24, 30, 50⟩ pA ((10 : ℚ) : ℝ) ((20 : ℚ) : ℝ)).2 = 0 ∧
    (check_location_match ⟨24, 30, 50⟩ pA ((10 : ℚ) : ℝ) ((20 : ℚ) : ℝ)).1 := by
  have t := location_match_spec ⟨24, 30, 50⟩ pA ((10 : ℚ) : ℝ) ((20 : ℚ) : ℝ) ⟨10, 20, 0⟩
  have h := t.2.2 rfl rfl rfl
  exact ⟨rfl, by norm_num, h.1, h.2 (by norm_num)⟩

/-- C5: with no wave parameters the frequency axis matches automatically at
distance 0; a predicted frequency of exactly 0 yields a non-match with the
infinite sentinel and no division; a positive predicted frequency yields a
match exactly when the relative difference `|observed − predicted|/predicted`
is at most the configured tolerance fraction, reported as a percentage. -/
theorem frequency_match_spec (v : PredictionValidator) (p : Prediction) (ef : ℚ)
    (wp : WaveParameters) :
    (p.wave_parameters = none → check_frequency_match v p ef = (true, .fin 0)) ∧
    (p.wave_parameters = some wp → wp.frequency_hz = 0 →
      check_frequency_match v p ef = (false, .inf)) ∧
    (p.wave_parameters = some wp → 0 < wp.frequency_hz →
      check_frequency_match v p ef =
        (decide (|ef - wp.frequency_hz| / wp.frequency_hz ≤
            v.frequency_tolerance_percent / 100),
          .fin (|ef - wp.frequency_hz| / wp.frequency_hz * 100)) ∧
      ((check_frequency_match v p ef).1 = true ↔
        |ef - wp.frequency_hz| / wp.frequency_hz ≤ v.frequency_tolerance_percent / 100)) := by
  refine ⟨fun h => ?_, fun h h0 => ?_, fun h hpos => ?_⟩
  · simp [check_frequency_match, h]
  · simp [check_frequency_match, h, h0]
  · have hne : ¬wp.frequency_hz = 0 := ne_of_gt hpos
    constructor
    · simp [check_frequency_match, h, hne, PredictionValidator.frequency_tolerance]
    · simp [check_frequency_match, h, hne, PredictionValidator.frequency_tolerance]

/-- C5 witness: concrete checks — no parameters, a zero predicted frequency,
and a 20 % difference against a 100 Hz prediction under the default 50 %
tolerance. -/
theorem frequency_match_spec_witness :
    ({ pA with wave_parameters := none } : Prediction).wave_parameters = none ∧
    check_frequency_match ⟨24, 30, 50⟩ { pA with wave_parameters := none } 120 =
      (true, .fin 0) ∧
    ({ pA with wave_parameters := some ⟨0, 1, none, none, none⟩ } :
      Prediction).wave_parameters = some ⟨0, 1, none, none, none⟩ ∧
    check_frequency_match ⟨24, 30, 50⟩
      { pA with wave_parameters := some ⟨0, 1, none, none, none⟩ } 120 = (false, .inf) ∧
    pA.wave_parameters = some ⟨100, 1, none, none, none⟩ ∧
    (0 : ℚ) < 100 ∧
    check_frequency_match ⟨24, 30, 50⟩ pA 120 =
      (decide (|(120 : ℚ) - 100| / 100 ≤ (50 : ℚ) / 100), .fin (|(120 : ℚ) - 100| / 100 * 100)) ∧
    ((check_frequency_match ⟨24, 30, 50⟩ pA 120).1 = true ↔
      |(120 : ℚ) - 100| / 100 ≤ (50 : ℚ) / 100) := by
  have t0 := frequency_match_spec ⟨24, 30, 50⟩ { pA with wave_parameters := none } 120
    ⟨100, 1, none, none, none⟩
  have t1 := frequency_match_spec ⟨24, 30, 50⟩
    { pA with wave_parameters := some ⟨0, 1, none, none, none⟩ } 120 ⟨0, 1, none, none, none⟩
  have t2 := frequency_match_spec ⟨24, 30, 50⟩ pA 120 ⟨100, 1, none, none, none⟩
  have h2 := t2.2.2 rfl (by norm_num)
  exact ⟨rfl, t0.1 rfl, rfl, t1.2.1 rfl rfl, rfl, by norm_num, h2.1, h2.2⟩

/-- C6: `validate_against_event` always evaluates the time axis, evaluates
the sky axis exactly when both event coordinates are supplied and the
frequency axis exactly when an event frequency is supplied; the overall match
is the conjunction of the per-axis results over the evaluated axes, and the
composite score is the arithmetic mean, over exactly those axes, of
`max(0, 1 − hours/48)`, `max(0, 1 − degrees/90)` and `max(0, 1 − percent/100)`. -/
theorem aggregate_spec (v : PredictionValidator) (p : Prediction) (t : ℚ)
    (ora odec : Option ℝ) (ofr : Option ℚ) :
    (validate_against_event v p t ora odec ofr).location_check.isSome =
        (ora.isSome && odec.isSome) ∧
    (validate_against_event v p t ora odec ofr).frequency_check.isSome = ofr.isSome ∧
    (validate_against_event v p t ora odec ofr).time_match = (check_time_match v p t).1 ∧
    (validate_against_event v p t ora odec ofr).time_difference_hours =
        (check_time_match v p t).2 ∧
    ((validate_against_event v p t ora odec ofr).overall_match ↔
      ((check_time_match v p t).1 = true ∧
        (∀ lc, (validate_against_event v p t ora odec ofr).location_check = some lc →
          lc.1) ∧
        (∀ fc, (validate_against_event v p t ora odec ofr).frequency_check = some fc →
          fc.1 = true))) ∧
    (validate_against_event v p t ora odec ofr).match_score =
      (max 0 (1 - ((check_time_match v p t).2 : ℝ) / 48) +
        (match ora, odec with
          | some ra, some dec => max 0 (1 - (check_location_match v p ra dec).2 / 90)
          | _, _ => 0) +
        (match ofr with
          | some f => pyInfScore (check_frequency_match v p f).2
          | none => 0)) /
      ((1 : ℝ) + (if ora.isSome && odec.isSome then 1 else 0) +
        (if ofr.isSome then 1 else 0)) := by
  rcases ora with _ | ra <;> rcases odec with _ | dec <;> rcases ofr with _ | f <;>
    simp [validate_against_event] <;> (norm_num; try ring_nf)

/-- Helper: `confValue` can only raise the float conversion error. -/
theorem confValue_error {o : Option (List Char)} {x : PyError}
    (h : confValue o = .error x) : x = .floatError := by
  cases o with
  | none => simp [confValue] at h
  | some s =>
    cases hps : pyFloat s with
    | none =>
      rw [show confValue (some s) = .error .floatError by simp [confValue, hps]] at h
      injection h with h
      exact h.symm
    | some v =>
      rw [show confValue (some s) = .ok (v / 100) by simp [confValue, hps]] at h
      exact absurd h (by simp)

/-- With a clamped confidence and a window of the form `[d, d + 86400]`, a
`Prediction(...)` construction can only fail on the framework invariant. -/
theorem mkPrediction_error_clamped {i : List Char} {ptype : PredictionType}
    {ca ed : ℚ} {fw : List Char} {conf : ℚ} {desc : List Char}
    {sky : Option SkyLocation} {wave : Option WaveParameters}
    {status : PredictionStatus} {tags : List (List Char)} {e2 : PredErr}
    (h : mkPrediction i ptype ca ed (ed + 86400) fw (min (max conf 0) 1) desc sky wave
      status tags = .error e2) :
    e2 = .frameworkInvalid := by
  have hc : (0 : ℚ) ≤ min (max conf 0) 1 ∧ min (max conf 0) 1 ≤ 1 :=
    ⟨le_min (le_max_right _ _) zero_le_one, min_le_right _ _⟩
  have hw : ¬(ed + 86400 < ed) := by linarith
  unfold mkPrediction at h
  rw [if_neg (not_not_intro hc), if_neg hw] at h
  split at h
  · injection h with h
    exact h.symm
  · exact absurd h (by simp)

/-- C7 counterexample: the input
`"Solar flare activity expected\nRA: 400\nDec: 30"` extracts a right
ascension of 400 — violating the `[0, 360]` invariant — yet `parse_content`
succeeds with an absent sky location instead of propagating a structural
error. -/
theorem sky_invariant_absorbed_counterexample :
    extract_ra (str "Solar flare activity expected\nRA: 400\nDec: 30") = some (str "400") ∧
    pyFloat (str "400") = some 400 ∧
    ¬(0 ≤ (400 : ℚ) ∧ (400 : ℚ) ≤ 360) ∧
    skyOf (parse_content (str "Solar flare activity expected\nRA: 400\nDec: 30")
      (str "pred.md") 0) = some none := by
  exact ⟨by with_unfolding_all decide, by with_unfolding_all decide, by norm_num,
    by with_unfolding_all decide⟩

/-- C7 (amended): invariant violations inside `SkyPosition` and
`SignalParameters` assembly are silently absorbed into an absent field (the
parser's `except ValueError` catches them together with malformed floats),
while the only structural error that can propagate out of `parse_content` —
besides the empty-content parse error and a malformed confidence float — is
the top-level framework invariant of the Forecast. -/
theorem invariant_absorption_and_error_sources (content src : List Char) (now : ℚ)
    (rs ds : List Char) (ra dec : ℚ) (e : PyError) :
    (extract_ra content = some rs → extract_dec content = some ds →
      pyFloat rs = some ra → pyFloat ds = some dec → ¬(0 ≤ ra ∧ ra ≤ 360) →
      extract_sky_location content = none) ∧
    (∀ fs : List Char, ∀ fq : ℚ, extract_frequency content = some fs →
      pyFloat fs = some fq → fq ≤ 0 → extract_wave_parameters content = none) ∧
    (parse_content content src now = .error e →
      e = .parseError ∨ e = .floatError ∨ e = .structural .frameworkInvalid) := by
  refine ⟨fun h1 h2 h3 h4 h5 => ?_, fun fs fq h1 h2 h3 => ?_, fun herr => ?_⟩
  · simp only [extract_sky_location, h1, h2, h3, h4]
    simp [mkSkyLocation, h5, Except.toOption]
  · simp only [extract_wave_parameters, h1]
    cases ha : extract_amplitude content with
    | none =>
      simp only [h2]
      simp [mkWaveParameters, h3, Except.toOption]
    | some amp =>
      cases hpa : pyFloat amp with
      | none => simp [h2, hpa]
      | some av =>
        simp only [h2, hpa]
        simp [mkWaveParameters, h3, Except.toOption]
  · unfold parse_content at herr
    split at herr
    · injection herr with herr
      exact Or.inl herr.symm
    · split at herr
      · next e1 hcv =>
        injection herr with herr
        subst herr
        exact Or.inr (Or.inl (confValue_error hcv))
      · dsimp only at herr
        split at herr
        · exact absurd herr (by simp)
        · next e2 hmk =>
          injection herr with herr
          subst herr
          exact Or.inr (Or.inr (by rw [mkPrediction_error_clamped hmk]))

/-- C7 witness: the amended statement applied at concrete inputs — an
out-of-range right ascension and a zero frequency are both absorbed, and a
concrete framework-invariant violation is the structural error that
propagates. -/
theorem invariant_absorption_witness :
    extract_ra (str "Solar flare activity expected\nRA: 400\nDec: 30") = some (str "400") ∧
    extract_dec (str "Solar flare activity expected\nRA: 400\nDec: 30") = some (str "30") ∧
    pyFloat (str "400") = some 400 ∧
    pyFloat (str "30") = some 30 ∧
    ¬(0 ≤ (400 : ℚ) ∧ (400 : ℚ) ≤ 360) ∧
    extract_sky_location (str "Solar flare activity expected\nRA: 400\nDec: 30") = none ∧
    extract_frequency (str "Frequency: 0 wave") = some (str "0") ∧
    pyFloat (str "0") = some 0 ∧
    (0 : ℚ) ≤ 0 ∧
    extract_wave_parameters (str "Frequency: 0 wave") = none ∧
    parse_content (str "framework: experimental prediction of events") (str "w.md") 0 =
      .error (.structural .frameworkInvalid) ∧
    (PyError.structural .frameworkInvalid = .parseError ∨
      PyError.structural .frameworkInvalid = .floatError ∨
      PyError.structural .frameworkInvalid = .structural .frameworkInvalid) := by
  have t1 := invariant_absorption_and_error_sources
    (str "Solar flare activity expected\nRA: 400\nDec: 30") (str "pred.md") 0
    (str "400") (str "30") 400 30 .parseError
  have t2 := invariant_absorption_and_error_sources (str "Frequency: 0 wave") (str "pred.md") 0
    (str "400") (str "30") 400 30 .parseError
  have t3 := invariant_absorption_and_error_sources
    (str "framework: experimental prediction of events") (str "w.md") 0
    (str "400") (str "30") 400 30 (.structural .frameworkInvalid)
  have hparse : parse_content (str "framework: experimental prediction of events")
      (str "w.md") 0 = .error (.structural .frameworkInvalid) := by
    with_unfolding_all decide
  refine ⟨by with_unfolding_all decide, by with_unfolding_all decide,
    by with_unfolding_all decide, by with_unfolding_all decide, by norm_num,
    t1.1 (by with_unfolding_all decide) (by with_unfolding_all decide)
      (by with_unfolding_all decide) (by with_unfolding_all decide) (by norm_num),
    by with_unfolding_all decide, by with_unfolding_all decide, le_refl 0,
    t2.2.1 (str "0") 0 (by with_unfolding_all decide) (by with_unfolding_all decide)
      (le_refl 0),
    hparse, t3.2.2 hparse⟩

/-- Helper: when no framework and no confidence patterns occur in a non-empty
content, `parse_content` succeeds, the window start is the parsed first date
token (or `now`), and the window end is always start + 24 h. -/
theorem parse_window_start (content src : List Char) (now : ℚ)
    (hfw : extract_framework content = none)
    (hconf : extract_confidence content = none)
    (hne : (stripChars content).isEmpty = false) :
    ∃ p, parse_content content src now = .ok p ∧
      p.predicted_event_start =
        (match firstDateToken content with
          | none => now
          | some tok =>
            match parse_date tok with
            | some d => epochOfYMD d
            | none => now) ∧
      p.predicted_event_end = p.predicted_event_start + 86400 := by
  unfold parse_content
  rw [hfw, hconf, hne]
  simp only [Bool.false_eq_true, if_false, confValue, Option.getD_none]
  rw [if_neg (by simp [str])]
  unfold mkPrediction
  rw [if_neg (not_not_intro ⟨le_min (le_max_right _ _) zero_le_one, min_le_right _ _⟩),
    if_neg (by linarith), if_neg (not_not_intro (by simp [VALID_FRAMEWORKS]))]
  exact ⟨_, rfl, rfl, rfl⟩

/-- C8 (code bug evaluation): the date token pattern
`\d{1,2}[/\-]\d{1,2}[/\-]\d{2,4}` cannot capture a 4-digit leading year, so
for the input `"Date: 2025-01-15"` the captured token is `"25-01-15"`, every
format candidate fails on it, and the window start falls back to the current
timestamp (here 99) instead of the January 15 2025 the text denotes (epoch
1736899200) — even though the `%Y-%m-%d` candidate would parse the full
`"2025-01-15"` string.  Slash-format tokens like `01/15/2025` parse as
claimed, and the window end is always start + 24 h. -/
theorem iso_date_regex_bug :
    firstDateToken (str "Date: 2025-01-15") = some (str "25-01-15") ∧
    parse_date (str "25-01-15") = none ∧
    windowOf (parse_content (str "Date: 2025-01-15") (str "pred.md") 99) =
      some (99, 99 + 86400) ∧
    strptimeYMD fmtISO (str "2025-01-15") = some ⟨2025, 1, 15⟩ ∧
    epochOfYMD ⟨2025, 1, 15⟩ = 1736899200 ∧
    (99 : ℚ) ≠ 1736899200 ∧
    firstDateToken (str "Date: 01/15/2025 big event coming") = some (str "01/15/2025") ∧
    parse_date (str "01/15/2025") = some ⟨2025, 1, 15⟩ := by
  have h1 : firstDateToken (str "Date: 2025-01-15") = some (str "25-01-15") := by decide
  have h2 : parse_date (str "25-01-15") = none := by decide
  have h3 : windowOf (parse_content (str "Date: 2025-01-15") (str "pred.md") 99) =
      some (99, 99 + 86400) := by
    obtain ⟨p, hok, hstart, hend⟩ := parse_window_start (str "Date: 2025-01-15")
      (str "pred.md") 99 (by decide) (by decide) (by decide)
    have hs99 : p.predicted_event_start = 99 := by
      rw [hstart, h1]
      simp [h2]
    rw [hok]
    simp only [windowOf]
    rw [hend, hs99]
  have h4 : strptimeYMD fmtISO (str "2025-01-15") = some ⟨2025, 1, 15⟩ := by decide
  have h5 : epochOfYMD ⟨2025, 1, 15⟩ = 1736899200 := by
    have d1 : dayNumber ⟨2025, 1, 15⟩ = 739265 := by decide
    have d2 : dayNumber ⟨1970, 1, 1⟩ = 719162 := by decide
    unfold epochOfYMD
    rw [d1, d2]
    norm_num
  have h7 : firstDateToken (str "Date: 01/15/2025 big event coming") =
      some (str "01/15/2025") := by decide
  have h8 : parse_date (str "01/15/2025") = some ⟨2025, 1, 15⟩ := by decide
  exact ⟨h1, h2, h3, h4, h5, by norm_num, h7, h8⟩

/-- Helper: `List.find?` returns the first hit: the element at position `i` when it
satisfies the predicate and everything before it does not. -/
theorem find?_first {α : Type} (p : α → Bool) (l : List α) (i : ℕ) (x : α)
    (hx : l.get? i = some x) (hpx : p x = true)
    (hprev : ∀ j, j < i → ∀ y, l.get? j = some y → p y = false) :
    l.find? p = some x := by
  induction l generalizing i with
  | nil => simp at hx
  | cons a t ih =>
    cases i with
    | zero =>
      simp only [List.get?] at hx
      injection hx with hx
      subst hx
      exact List.find?_cons_of_pos _ hpx
    | succ n =>
      have ha : p a = false := hprev 0 (Nat.succ_pos n) a rfl
      rw [List.find?_cons_of_neg _ (by simp [ha])]
      exact ih n hx fun j hj y hy => hprev (j + 1) (by omega) y hy

/-- C9: category inference is a first-match policy over the fixed keyword
table: the first category (wave-burst first) whose keyword list has any
case-insensitive substring hit in the text wins, and with no hit at all the
default is the wave-burst category. -/
theorem type_inference_first_match (content : List Char) (i : ℕ)
    (tk : PredictionType × List (List Char)) :
    ((∀ pair ∈ TYPE_KEYWORDS, pair.2.any (fun k => containsSub k (toLowerL content)) = false) →
      infer_prediction_type content = .gravitational_wave) ∧
    (TYPE_KEYWORDS.get? i = some tk →
      tk.2.any (fun k => containsSub k (toLowerL content)) = true →
      (∀ j, j < i → ∀ pair, TYPE_KEYWORDS.get? j = some pair →
        pair.2.any (fun k => containsSub k (toLowerL content)) = false) →
      infer_prediction_type content = tk.1) := by
  constructor
  · intro hall
    have hnone : TYPE_KEYWORDS.find?
        (fun tk => tk.2.any fun k => containsSub k (toLowerL content)) = none := by
      rw [List.find?_eq_none]
      intro x hxmem
      simp [hall x hxmem]
    simp [infer_prediction_type, hnone]
  · intro htk hhit hprev
    have hfind := find?_first (fun y => y.2.any fun k => containsSub k (toLowerL content))
      TYPE_KEYWORDS i tk htk hhit hprev
    simp [infer_prediction_type, hfind]

/-- C9 witness: a text hitting both the wave-burst and the flare keyword
lists classifies as wave-burst (enumeration order, not hit count), and a
text hitting nothing falls back to wave-burst. -/
theorem type_inference_first_match_witness :
    TYPE_KEYWORDS.get? 0 = some (.gravitational_wave,
      [str "gravitational", str "gw", str "ligo", str "merger", str "binary"]) ∧
    [str "gravitational", str "gw", str "ligo", str "merger", str "binary"].any
      (fun k => containsSub k (toLowerL (str "Solar flare versus Gravitational wave"))) =
      true ∧
    [str "solar", str "flare", str "cme", str "sun"].any
      (fun k => containsSub k (toLowerL (str "Solar flare versus Gravitational wave"))) =
      true ∧
    infer_prediction_type (str "Solar flare versus Gravitational wave") =
      .gravitational_wave ∧
    (∀ pair ∈ TYPE_KEYWORDS,
      pair.2.any (fun k => containsSub k (toLowerL (str "nothing relevant"))) = false) ∧
    infer_prediction_type (str "nothing relevant") = .gravitational_wave := by
  have t1 := type_inference_first_match (str "Solar flare versus Gravitational wave") 0
    (.gravitational_wave, [str "gravitational", str "gw", str "ligo", str "merger",
      str "binary"])
  have t2 := type_inference_first_match (str "nothing relevant") 0
    (.gravitational_wave, [str "gravitational", str "gw", str "ligo", str "merger",
      str "binary"])
  exact ⟨by with_unfolding_all decide, by with_unfolding_all decide,
    by with_unfolding_all decide,
    t1.2 (by with_unfolding_all decide) (by with_unfolding_all decide)
      (fun j hj => absurd hj (by omega)),
    by with_unfolding_all decide,
    t2.1 (by with_unfolding_all decide)⟩

/-- C10: for the input `"framework: experimental …"` the pattern captures the
lowercase label, the parser uppercases it (since it differs from the exact
string `"Experimental"`), the result `"EXPERIMENTAL"` is outside the closed
framework set, and `parse_content` raises the construction error instead of
returning a Forecast. -/
theorem framework_case_uppercase_error :
    extract_framework (str "framework: experimental prediction of events") =
      some (str "experimental") ∧
    str "experimental" ≠ str "Experimental" ∧
    upperL (str "experimental") = str "EXPERIMENTAL" ∧
    ¬(str "EXPERIMENTAL" ∈ VALID_FRAMEWORKS) ∧
    parse_content (str "framework: experimental prediction of events") (str "pred.md") 0 =
      .error (.structural .frameworkInvalid) := by
  exact ⟨by with_unfolding_all decide, by with_unfolding_all decide,
    by with_unfolding_all decide, by with_unfolding_all decide,
    by with_unfolding_all decide⟩
